import Mathlib

/-!
# Verification of the llm-deployment repository sync engine and delivery notifier

Shallow embedding of the Python sources:
- `src/modules/notifier.py` (`EvaluationNotifier`): retry/backoff delivery,
  payload validation;
- `src/modules/github_manager.py` (`GitHubManager`): repo-name slug, commit
  construction over the git object graph, pages activation, update path;
- `src/app.py`: inbound field check and round-based routing.

Python dicts with heterogeneous values are modelled as association lists over
`PyVal`; the remote git host's object store is modelled as explicit state
(`RepoState`), with blob/tree/commit creation following the host contract the
code relies on (a tree created from elements layered on a base tree overrides
the base at the given paths and inherits the rest). Network responses are
supplied as explicit oracles so that the pure control flow of the Python code
becomes a total function.
-/

set_option autoImplicit false

namespace LLMDeploy

/-- A Python value as it occurs in the payload dicts of this program:
only strings and ints appear in the fields the code inspects. -/
inductive PyVal where
  | str (s : String)
  | int (n : Int)
  deriving DecidableEq, Repr

/-- First-match association-list lookup: the model of `data[key]` /
`key in data` on a Python dict (keys are unique in a real dict, so
first-match agrees with dict semantics). -/
def lookupKey {β : Type} (k : String) : List (String × β) → Option β
  | [] => none
  | (k', v) :: rest => if k' = k then some v else lookupKey k rest

/-- `key in data` on a Python dict. -/
def hasKey {β : Type} (data : List (String × β)) (k : String) : Bool :=
  (lookupKey k data).isSome

/-- Python `==` between the payload values this program compares. -/
def pyEq : PyVal → PyVal → Bool
  | .str a, .str b => a == b
  | .int a, .int b => a == b
  | _, _ => false

/-- Python `s.startswith(pre)`, via the character lists. -/
def strStartsWith (s pre : String) : Bool :=
  List.isPrefixOf pre.toList s.toList

/-- Python `c in s` for a single character `c`. -/
def strContainsChar (s : String) (c : Char) : Bool :=
  s.toList.contains c

/-! ## Notifier (`src/modules/notifier.py`) -/

/-- The outcome the network hands one `requests.post` call inside
`_send_notification_request`: an HTTP status, or one of the exception
classes the function catches. -/
inductive HttpResp where
  | status (code : Nat)
  | timeout
  | connError
  | reqError
  | exn
  deriving DecidableEq, Repr

/-- `EvaluationNotifier._send_notification_request` (notifier.py:36-81):
one POST; returns `True` exactly when the response status is 200; every
other status and every caught exception (timeout, connection error,
request error, unexpected) returns `False`. -/
def send_notification_request (resp : HttpResp) : Bool :=
  match resp with
  | .status code => code == 200
  | .timeout => false
  | .connError => false
  | .reqError => false
  | .exn => false

/-- `EvaluationNotifier.max_retries` (notifier.py:21). -/
def max_retries : Nat := 4

/-- `EvaluationNotifier._calculate_delay` (notifier.py:24-34):
`base_delay * (2 ** attempt)` with `base_delay = 1.0` second; the float
values 1.0, 2.0, 4.0, 8.0 are the naturals `2 ^ attempt`. -/
def calculate_delay (attempt : Nat) : Nat :=
  1 * 2 ^ attempt

/-- Observable outcome of one `send_notification` run: the returned bool,
the number of network calls issued, and the sequence of sleeps (seconds). -/
structure NotifyTrace where
  result : Bool
  networkCalls : Nat
  delays : List Nat
  deriving DecidableEq, Repr

/-- The retry loop of `send_notification` (notifier.py:110-138), recursing
over the list of attempt indices `range(max_retries + 1)`. On success the
loop returns `True` at once; on failure it sleeps `calculate_delay attempt`
when `attempt < maxRetries` and continues; an exhausted loop returns
`False`. -/
def notifyLoop (responses : Nat → HttpResp) (maxRetries : Nat) :
    List Nat → NotifyTrace
  | [] => ⟨false, 0, []⟩
  | attempt :: rest =>
    if send_notification_request (responses attempt) then
      ⟨true, 1, []⟩
    else if attempt < maxRetries then
      let t := notifyLoop responses maxRetries rest
      ⟨t.result, t.networkCalls + 1, calculate_delay attempt :: t.delays⟩
    else
      let t := notifyLoop responses maxRetries rest
      ⟨t.result, t.networkCalls + 1, t.delays⟩

/-- The seven fields `send_notification` requires (notifier.py:97). -/
def required_fields : List String :=
  ["email", "task", "round", "nonce", "repo_url", "commit_sha", "pages_url"]

/-- `EvaluationNotifier.send_notification` (notifier.py:83-138): returns
`False` with zero network activity when a required field is missing or the
url is empty / lacks an http(s) scheme; otherwise runs the retry loop over
attempts `0..max_retries`. The response of the i-th network call is
`responses i`. -/
def send_notification (responses : Nat → HttpResp) (evaluation_url : String)
    (notification_data : List (String × PyVal)) : NotifyTrace :=
  let missing_fields :=
    required_fields.filter (fun f => !(hasKey notification_data f))
  if missing_fields ≠ [] then
    ⟨false, 0, []⟩
  else if evaluation_url = "" ∨
      ¬(strStartsWith evaluation_url "http://" ∨
        strStartsWith evaluation_url "https://") then
    ⟨false, 0, []⟩
  else
    notifyLoop responses max_retries (List.range (max_retries + 1))

/-- The Python type each field must have per
`validate_notification_data` (notifier.py:150-158). -/
inductive PyType where
  | str
  | int
  deriving DecidableEq, Repr

/-- `isinstance(v, t)` for the two types the validator checks. -/
def isinstance : PyVal → PyType → Bool
  | .str _, .str => true
  | .int _, .int => true
  | _, _ => false

/-- Printed name of a `PyType` (`expected_type.__name__`). -/
def pyTypeName : PyType → String
  | .str => "str"
  | .int => "int"

/-- Printed name of a value's type (`type(v).__name__`). -/
def pyValTypeName : PyVal → String
  | .str _ => "str"
  | .int _ => "int"

/-- The field/type table of `validate_notification_data` (notifier.py:150-158). -/
def required_field_types : List (String × PyType) :=
  [("email", .str), ("task", .str), ("round", .int), ("nonce", .str),
   ("repo_url", .str), ("commit_sha", .str), ("pages_url", .str)]

/-- The first type error in the validator's field loop (notifier.py:166-168),
if any. -/
def firstTypeError (data : List (String × PyVal)) :
    List (String × PyType) → Option String
  | [] => none
  | (f, t) :: rest =>
    match lookupKey f data with
    | some v =>
      if isinstance v t then firstTypeError data rest
      else some ("Field '" ++ f ++ "' must be of type " ++ pyTypeName t ++
        ", got " ++ pyValTypeName v)
    | none => firstTypeError data rest

/-- `data[f]` as a string; only consulted after the isinstance pass
guarantees the field holds a `str`. -/
def getStr (data : List (String × PyVal)) (f : String) : String :=
  match lookupKey f data with
  | some (.str s) => s
  | _ => ""

/-- `data[f]` as an int; only consulted after the isinstance pass
guarantees the field holds an `int`. -/
def getInt (data : List (String × PyVal)) (f : String) : Int :=
  match lookupKey f data with
  | some (.int n) => n
  | _ => 0

/-- `EvaluationNotifier.validate_notification_data` (notifier.py:140-191):
presence, isinstance types, http(s) scheme on repo_url/pages_url,
`round >= 1`, commit sha nonempty and of length ≥ 7, email containing
both '@' and '.'. -/
def validate_notification_data (data : List (String × PyVal)) :
    Bool × String :=
  let missing_fields :=
    required_field_types.filter (fun ft => !(hasKey data ft.1))
  if missing_fields ≠ [] then
    (false, "Missing required fields: " ++
      String.intercalate ", " (missing_fields.map (·.1)))
  else
    match firstTypeError data required_field_types with
    | some err => (false, err)
    | none =>
      let repo_url := getStr data "repo_url"
      if ¬(strStartsWith repo_url "http://" ∨ strStartsWith repo_url "https://") then
        (false, "Invalid repo_url format: " ++ repo_url)
      else
        let pages_url := getStr data "pages_url"
        if ¬(strStartsWith pages_url "http://" ∨
            strStartsWith pages_url "https://") then
          (false, "Invalid pages_url format: " ++ pages_url)
        else if getInt data "round" < 1 then
          (false, "Round number must be >= 1, got " ++
            toString (getInt data "round"))
        else
          let commit_sha := getStr data "commit_sha"
          if commit_sha = "" ∨ commit_sha.length < 7 then
            (false, "Invalid commit SHA format: " ++ commit_sha)
          else
            let email := getStr data "email"
            if ¬(strContainsChar email '@') ∨ ¬(strContainsChar email '.') then
              (false, "Invalid email format: " ++ email)
            else
              (true, "Validation passed")

/-! ## GitHub manager (`src/modules/github_manager.py`) -/

/-- Python `str.lower()` on one character, faithful on the code points below
0x100 that this model covers: ASCII `A`-`Z` and the Latin-1 uppercase
letters `À`(0xC0)-`Þ`(0xDE) except `×`(0xD7) map to the code point 32
higher; every other covered character is unchanged. -/
def pyLowerChar (c : Char) : Char :=
  if 65 ≤ c.toNat ∧ c.toNat ≤ 90 then Char.ofNat (c.toNat + 32)
  else if 192 ≤ c.toNat ∧ c.toNat ≤ 222 ∧ c.toNat ≠ 215 then
    Char.ofNat (c.toNat + 32)
  else c

/-- Python `str.isalnum()` on one character, faithful on the code points
below 0x100: ASCII letters and digits, the Latin-1 letters (0xC0-0xFF
except `×` and `÷`), and the Latin-1 letter/digit signs
`ª µ º ² ³ ¹ ¼ ½ ¾`. -/
def pyIsAlnumChar (c : Char) : Bool :=
  let n := c.toNat
  (65 ≤ n && n ≤ 90) || (97 ≤ n && n ≤ 122) || (48 ≤ n && n ≤ 57) ||
  (192 ≤ n && n ≤ 255 && n ≠ 215 && n ≠ 247) ||
  n == 170 || n == 181 || n == 186 || n == 178 || n == 179 || n == 185 ||
  (188 ≤ n && n ≤ 190)

/-- `.replace('_', '-')` on one character. -/
def underToHyphen (c : Char) : Char :=
  if c = '_' then '-' else c

/-- `.replace(' ', '-')` on one character. -/
def spaceToHyphen (c : Char) : Char :=
  if c = ' ' then '-' else c

/-- The filter `c.isalnum() or c in '-.'` (github_manager.py:47). -/
def slugKeep (c : Char) : Bool :=
  pyIsAlnumChar c || c = '-' || c = '.'

/-- `GitHubManager._generate_repo_name` (github_manager.py:40-48) on a list
of characters: lowercase, replace `_` and ` ` with `-`, then keep only the
characters for which `c.isalnum() or c in '-.'`. -/
def generate_repo_name_chars (cs : List Char) : List Char :=
  (((cs.map pyLowerChar).map underToHyphen).map spaceToHyphen).filter slugKeep

/-- The character set `[a-z0-9-.]` the spec names for repository slugs
(45 = `-`, 46 = `.`). -/
def inSlugCharset (c : Char) : Prop :=
  (97 ≤ c.toNat ∧ c.toNat ≤ 122) ∨ (48 ≤ c.toNat ∧ c.toNat ≤ 57) ∨
  c.toNat = 45 ∨ c.toNat = 46

instance (c : Char) : Decidable (inSlugCharset c) := by
  unfold inSlugCharset
  exact inferInstance

/-- `GitHubManager._generate_repo_name` (github_manager.py:40-48). -/
def generate_repo_name (task_id : String) : String :=
  ⟨generate_repo_name_chars task_id.toList⟩

/-- A git commit object as the code builds it via `create_git_commit`:
message, the tree it references (path → blob content), and the list of
parent commit ids. Commit ids are modelled as the naturals a counter
hands out, standing in for shas. -/
structure GitCommit where
  message : String
  tree : List (String × String)
  parents : List Nat
  deriving DecidableEq, Repr

/-- Remote repository state as the sync engine sees it: default branch
name, branch refs (branch → tip commit id), the commit store
(id → commit), and the id counter. -/
structure RepoState where
  defaultBranch : String
  branches : List (String × Nat)
  commits : List (Nat × GitCommit)
  nextId : Nat
  deriving DecidableEq, Repr

/-- Generic first-match lookup on `Nat`-keyed association lists
(the commit store). -/
def lookupNat {β : Type} (k : Nat) : List (Nat × β) → Option β
  | [] => none
  | (k', v) :: rest => if k' = k then some v else lookupNat k rest

/-- Update-or-insert on a `String`-keyed association list: the model of
`ref.edit(sha)` when the ref exists and `create_git_ref` otherwise. -/
def setKey {β : Type} (l : List (String × β)) (k : String) (v : β) :
    List (String × β) :=
  if (lookupKey k l).isSome then
    l.map (fun e => if e.1 = k then (k, v) else e)
  else
    (k, v) :: l

/-- The head commit of the default branch, with its id: the try-block of
`_commit_files` (github_manager.py:206-220). `none` models the exception
path — the repository is empty or the default branch has no fetchable
commit — in which case the code proceeds with no base tree and no parent. -/
def headCommit (repo : RepoState) : Option (Nat × GitCommit) :=
  match lookupKey repo.defaultBranch repo.branches with
  | some sha => (lookupNat sha repo.commits).map (fun c => (sha, c))
  | none => none

/-- The host's tree creation with a base tree (`create_git_tree(elements,
base_tree)`, github_manager.py:262-263 and the host contract of spec §6d):
the elements override the base at their paths, every other base entry is
inherited. -/
def mergeTrees (base files : List (String × String)) :
    List (String × String) :=
  base.filter (fun e => (lookupKey e.1 files).isNone) ++ files

/-- `GitHubManager._commit_files` (github_manager.py:193-295): determine
the head commit and base tree; upload each file as a blob (modelled by
carrying the content directly, as the raw-API `MockBlob` adapter for empty
repos also only transports a content id); create the tree (layered over
the base tree when one exists); create the commit with the prior head as
sole parent, or no parent for an empty repository; move or create the
branch ref (the code falls back to branch name `"main"` when the
repository had no head). Returns the new state and the new commit id. -/
def commit_files (repo : RepoState) (files : List (String × String))
    (commit_message : String) : RepoState × Nat :=
  let head := headCommit repo
  let newTree :=
    match head with
    | some (_, c) => mergeTrees c.tree files
    | none => files
  let parents :=
    match head with
    | some (sha, _) => [sha]
    | none => []
  let branchName := if head.isSome then repo.defaultBranch else "main"
  let cid := repo.nextId
  ({ defaultBranch := repo.defaultBranch
     branches := setKey repo.branches branchName cid
     commits := (cid, ⟨commit_message, newTree, parents⟩) :: repo.commits
     nextId := cid + 1 }, cid)

/-- The commit object `commit_files` created, read back out of the
resulting state at the returned id. -/
def newCommitOf (repo : RepoState) (files : List (String × String))
    (commit_message : String) : GitCommit :=
  match lookupNat (commit_files repo files commit_message).2
      (commit_files repo files commit_message).1.commits with
  | some c => c
  | none => ⟨"", [], []⟩

/-- Outcome of the Pages API POST inside `_enable_github_pages`: a status
code, or an exception anywhere in the try-block. -/
inductive PagesApiOutcome where
  | status (code : Nat)
  | exn
  deriving DecidableEq, Repr

/-- `GitHubManager._enable_github_pages` (github_manager.py:297-348):
computes the expected pages URL up front; 200/201 is success, 409
(already enabled) is treated as success, any other status is logged and
the expected URL returned anyway, and any exception is caught and the
expected URL returned. The function is total — it never raises. -/
def enable_github_pages (github_username repo_name : String)
    (outcome : PagesApiOutcome) : String :=
  let pages_url :=
    "https://" ++ github_username ++ ".github.io/" ++ repo_name ++ "/"
  match outcome with
  | .status code =>
    if code = 200 ∨ code = 201 then pages_url
    else if code = 409 then pages_url
    else pages_url
  | .exn => pages_url

/-- The remote host's account state: the repositories of the
authenticated user, keyed by name. -/
structure GithubState where
  repos : List (String × RepoState)
  deriving DecidableEq, Repr

/-- `GitHubManager._create_readme_content` (github_manager.py:77-149),
abridged to its head line and interpolation points; no claim depends on
the template text, only on which paths the update writes. -/
def create_readme_content (github_username brief repo_name : String) :
    String :=
  "# " ++ repo_name ++ "\n\n## Overview\n\n> " ++ brief ++
  "\n\nhttps://" ++ github_username ++ ".github.io/" ++ repo_name ++ "/\n"

/-- `GitHubManager.update_repository` (github_manager.py:395-441): resolve
the repo name from the task id; look the repository up and fail with
`ValueError("Repository <name> does not exist for update")` when it is
absent — before any file preparation or commit; otherwise commit
`index.html` and `README.md` and return (repo_url, commit id, pages_url).
The returned state is the account state after the call. -/
def update_repository (github_username : String) (st : GithubState)
    (task_id generated_code brief : String) :
    GithubState × Except String (String × Nat × String) :=
  let repo_name := generate_repo_name task_id
  match lookupKey repo_name st.repos with
  | none =>
    (st, .error ("Repository " ++ repo_name ++ " does not exist for update"))
  | some repo =>
    let files :=
      [("index.html", generated_code),
       ("README.md", create_readme_content github_username brief repo_name)]
    let result :=
      commit_files repo files
        "Update: Revised application based on new requirements"
    let pages_url :=
      "https://" ++ github_username ++ ".github.io/" ++ repo_name ++ "/"
    let repo_url :=
      "https://github.com/" ++ github_username ++ "/" ++ repo_name
    ({ repos := setKey st.repos repo_name result.1 },
     .ok (repo_url, result.2, pages_url))

/-! ## Inbound endpoint and routing (`src/app.py`) -/

/-- The fields `handle_deployment_request` requires (app.py:121). -/
def app_required_fields : List String :=
  ["email", "secret", "task", "round", "nonce", "brief", "evaluation_url"]

/-- `handle_deployment_request` (app.py:105-151) after JSON parsing:
400 when a required field is absent (presence only — no value or type
check), 401 when the provided secret differs from the shared secret,
200 ("accepted") otherwise. -/
def handle_deployment_request (shared_secret : String)
    (request_data : List (String × PyVal)) : Nat :=
  let missing_fields :=
    app_required_fields.filter (fun f => !(hasKey request_data f))
  if missing_fields ≠ [] then 400
  else if ¬(lookupKey "secret" request_data = some (.str shared_secret)) then
    401
  else 200

/-- Which repository path the background pipeline takes. -/
inductive DeployPath where
  | create
  | update
  deriving DecidableEq, Repr

/-- The branch of `process_request_background` (app.py:69-78): the create
path exactly when `round_num == 1`, the update path for every other
value. -/
def select_deploy_path (round_num : PyVal) : DeployPath :=
  if pyEq round_num (.int 1) then .create else .update

/-! ## Concrete inputs used by the witnesses -/

/-- A payload carrying all seven required fields with values that the
public validator also accepts. -/
def demoPayload : List (String × PyVal) :=
  [("email", .str "a@b.c"), ("task", .str "demo"), ("round", .int 1),
   ("nonce", .str "n-1"), ("repo_url", .str "https://github.com/u/demo"),
   ("commit_sha", .str "abcdef0"), ("pages_url", .str "https://u.github.io/demo/")]

/-- A payload carrying all seven required fields but with `round = 0`,
which the public validator rejects. -/
def roundZeroPayload : List (String × PyVal) :=
  [("email", .str "a@b.c"), ("task", .str "demo"), ("round", .int 0),
   ("nonce", .str "n-1"), ("repo_url", .str "https://github.com/u/demo"),
   ("commit_sha", .str "abcdef0"), ("pages_url", .str "https://u.github.io/demo/")]

/-- A payload missing the `email` field. -/
def missingEmailPayload : List (String × PyVal) :=
  [("task", .str "demo"), ("round", .int 1), ("nonce", .str "n-1"),
   ("repo_url", .str "https://github.com/u/demo"),
   ("commit_sha", .str "abcdef0"), ("pages_url", .str "https://u.github.io/demo/")]

/-- The head commit of the demo repository: base tree `{A, B}`. -/
def demoBaseCommit : GitCommit :=
  ⟨"init", [("A", "a"), ("B", "b")], []⟩

/-- A one-commit repository whose base tree holds paths `A` and `B`. -/
def demoRepo : RepoState :=
  { defaultBranch := "main", branches := [("main", 0)],
    commits := [(0, demoBaseCommit)], nextId := 1 }

/-- The file mapping `{B: new, C: new}` of the spec's partial-update law. -/
def demoFiles : List (String × String) :=
  [("B", "newB"), ("C", "newC")]

/-- An inbound request carrying every required field, the right secret,
and a `round` that is a string rather than a positive int. -/
def demoRequest : List (String × PyVal) :=
  [("email", .str "a@b.c"), ("secret", .str "s3cret"), ("task", .str "demo"),
   ("round", .str "weird"), ("nonce", .str "n"), ("brief", .str "b"),
   ("evaluation_url", .str "https://eval.example/cb")]

/-! ## Association-list lemmas -/

theorem lookupKey_append {β : Type} (l₁ l₂ : List (String × β)) (p : String) :
    lookupKey p (l₁ ++ l₂) =
      match lookupKey p l₁ with
      | some v => some v
      | none => lookupKey p l₂ := by
  induction l₁ with
  | nil => simp [lookupKey]
  | cons e rest ih =>
    obtain ⟨k, v⟩ := e
    by_cases h : k = p
    · simp [lookupKey, h]
    · simp [lookupKey, h, ih]

theorem lookupKey_filter_isNone (base files : List (String × String))
    (p : String) :
    lookupKey p (base.filter fun e => (lookupKey e.1 files).isNone) =
      if (lookupKey p files).isSome then none else lookupKey p base := by
  induction base with
  | nil => simp [lookupKey]
  | cons e rest ih =>
    obtain ⟨k, v⟩ := e
    cases hkf : lookupKey k files with
    | none =>
      by_cases hp : k = p
      · subst hp
        simp [List.filter_cons, hkf, lookupKey]
      · simp [List.filter_cons, hkf, lookupKey, hp, ih]
    | some w =>
      by_cases hp : k = p
      · subst hp
        simp [List.filter_cons, hkf, lookupKey, ih]
      · simp [List.filter_cons, hkf, lookupKey, hp, ih]

theorem lookupKey_mergeTrees (base files : List (String × String))
    (p : String) :
    lookupKey p (mergeTrees base files) =
      match lookupKey p files with
      | some v => some v
      | none => lookupKey p base := by
  rw [mergeTrees, lookupKey_append, lookupKey_filter_isNone]
  cases h : lookupKey p files <;> cases hb : lookupKey p base <;> simp [h, hb]

/-! ## Claims -/

/-- C1: `_commit_files` with a base tree layers the new paths over it,
merge-by-path: the resulting commit's tree is the base tree merged with
the file mapping, so a path absent from `files` keeps its base content,
a path in `files` carries the new content, and no base path is removed. -/
theorem commit_files_merge_by_path (repo : RepoState)
    (files : List (String × String)) (message : String) (sha : Nat)
    (c : GitCommit) (h : headCommit repo = some (sha, c)) (p : String) :
    (newCommitOf repo files message).tree = mergeTrees c.tree files ∧
    (lookupKey p files = none →
      lookupKey p (newCommitOf repo files message).tree =
        lookupKey p c.tree) ∧
    (∀ v, lookupKey p files = some v →
      lookupKey p (newCommitOf repo files message).tree = some v) ∧
    (lookupKey p c.tree ≠ none →
      lookupKey p (newCommitOf repo files message).tree ≠ none) := by
  have htree : (newCommitOf repo files message).tree = mergeTrees c.tree files := by
    simp [newCommitOf, commit_files, h, lookupNat]
  refine ⟨htree, ?_, ?_, ?_⟩
  · intro hnone
    rw [htree, lookupKey_mergeTrees, hnone]
  · intro v hv
    rw [htree, lookupKey_mergeTrees, hv]
  · intro hne
    rw [htree, lookupKey_mergeTrees]
    cases hf : lookupKey p files <;> simp [hne]

/-- C1 witness at the spec's partial-update instance: base tree `{A, B}`,
files `{B: new, C: new}`, inspected at path `A`. -/
theorem commit_files_merge_by_path_witness :
    (newCommitOf demoRepo demoFiles "m").tree =
      mergeTrees demoBaseCommit.tree demoFiles ∧
    (lookupKey "A" demoFiles = none →
      lookupKey "A" (newCommitOf demoRepo demoFiles "m").tree =
        lookupKey "A" demoBaseCommit.tree) ∧
    (∀ v, lookupKey "A" demoFiles = some v →
      lookupKey "A" (newCommitOf demoRepo demoFiles "m").tree = some v) ∧
    (lookupKey "A" demoBaseCommit.tree ≠ none →
      lookupKey "A" (newCommitOf demoRepo demoFiles "m").tree ≠ none) :=
  commit_files_merge_by_path demoRepo demoFiles "m" 0 demoBaseCommit
    (by decide) "A"

/-- C2: the commit `_commit_files` creates has the prior head of the
default branch as its sole parent, and no parent at all when the
repository is empty (no head commit). -/
theorem commit_files_parent_of_head (repo : RepoState)
    (files : List (String × String)) (message : String) :
    (newCommitOf repo files message).parents =
      match headCommit repo with
      | some (sha, _) => [sha]
      | none => [] := by
  rcases h : headCommit repo with _ | ⟨sha, c⟩ <;>
    simp [newCommitOf, commit_files, h, lookupNat]

/-- C3: `update_repository` against a task id whose resolved name has no
repository fails with the not-found error and leaves the account state
exactly as it was — no repository, blob, tree, commit, or ref is written. -/
theorem update_repository_not_found (github_username : String)
    (st : GithubState) (task_id generated_code brief : String)
    (h : lookupKey (generate_repo_name task_id) st.repos = none) :
    update_repository github_username st task_id generated_code brief =
      (st, .error ("Repository " ++ generate_repo_name task_id ++
        " does not exist for update")) := by
  rw [update_repository, h]

/-- C3 witness: an account with no repositories, task id `"demo"`. -/
theorem update_repository_not_found_witness :
    update_repository "user" ⟨[]⟩ "demo" "code" "brief" =
      (⟨[]⟩, .error ("Repository " ++ generate_repo_name "demo" ++
        " does not exist for update")) :=
  update_repository_not_found "user" ⟨[]⟩ "demo" "code" "brief" rfl

/-- C5: when every attempt is classified as failure, `send_notification`
makes exactly 5 network calls with sleeps of exactly 1s, 2s, 4s, 8s
between them, and returns failure. -/
theorem send_notification_all_fail (responses : Nat → HttpResp)
    (evaluation_url : String) (notification_data : List (String × PyVal))
    (hfields : ∀ f ∈ required_fields, hasKey notification_data f = true)
    (hurl : strStartsWith evaluation_url "http://" = true ∨
      strStartsWith evaluation_url "https://" = true)
    (hfail : ∀ i, send_notification_request (responses i) = false) :
    send_notification responses evaluation_url notification_data =
      ⟨false, 5, [1, 2, 4, 8]⟩ := by
  have hne : ¬evaluation_url = "" := by
    intro hempty
    subst hempty
    rcases hurl with hurl | hurl <;> exact absurd hurl (by decide)
  have hmiss :
      required_fields.filter (fun f => !(hasKey notification_data f)) = [] := by
    rw [List.filter_eq_nil_iff]
    intro f hf
    simp [hfields f hf]
  rw [send_notification]
  simp only [hmiss, max_retries]
  rw [if_neg (by simp), if_neg (by simp [hne, hurl])]
  have hrange : List.range (4 + 1) = [0, 1, 2, 3, 4] := rfl
  rw [hrange]
  simp [notifyLoop, hfail, calculate_delay]

/-- C5 witness: every response is HTTP 503. -/
theorem send_notification_all_fail_witness :
    send_notification (fun _ => .status 503) "https://eval.example/cb"
      demoPayload = ⟨false, 5, [1, 2, 4, 8]⟩ :=
  send_notification_all_fail (fun _ => .status 503) "https://eval.example/cb"
    demoPayload (by decide) (Or.inr (by decide)) (fun _ => rfl)

/-- C6: a first response of exactly HTTP 200 makes `send_notification`
return success after exactly one network call and no sleep; and the
per-call classifier recognizes success only on exact 200, every other
status and every exception class being failure. -/
theorem send_notification_first_success (responses : Nat → HttpResp)
    (evaluation_url : String) (notification_data : List (String × PyVal))
    (hfields : ∀ f ∈ required_fields, hasKey notification_data f = true)
    (hurl : strStartsWith evaluation_url "http://" = true ∨
      strStartsWith evaluation_url "https://" = true)
    (hfirst : send_notification_request (responses 0) = true) :
    send_notification responses evaluation_url notification_data =
      ⟨true, 1, []⟩ ∧
    (∀ code, send_notification_request (.status code) = true ↔ code = 200) ∧
    send_notification_request .timeout = false ∧
    send_notification_request .connError = false ∧
    send_notification_request .reqError = false ∧
    send_notification_request .exn = false := by
  refine ⟨?_, ?_, rfl, rfl, rfl, rfl⟩
  · have hne : ¬evaluation_url = "" := by
      intro hempty
      subst hempty
      rcases hurl with hurl | hurl <;> exact absurd hurl (by decide)
    have hmiss :
        required_fields.filter (fun f => !(hasKey notification_data f)) = [] := by
      rw [List.filter_eq_nil_iff]
      intro f hf
      simp [hfields f hf]
    rw [send_notification]
    simp only [hmiss, max_retries]
    rw [if_neg (by simp), if_neg (by simp [hne, hurl])]
    have hrange : List.range (4 + 1) = [0, 1, 2, 3, 4] := rfl
    rw [hrange]
    simp [notifyLoop, hfirst]
  · intro code
    simp [send_notification_request]

/-- C6 witness: the first response is HTTP 200. -/
theorem send_notification_first_success_witness :
    send_notification (fun _ => .status 200) "https://eval.example/cb"
      demoPayload = ⟨true, 1, []⟩ ∧
    (∀ code, send_notification_request (.status code) = true ↔ code = 200) ∧
    send_notification_request .timeout = false ∧
    send_notification_request .connError = false ∧
    send_notification_request .reqError = false ∧
    send_notification_request .exn = false :=
  send_notification_first_success (fun _ => .status 200)
    "https://eval.example/cb" demoPayload (by decide) (Or.inr (by decide)) rfl

/-- C7: a payload missing a required field, or a url without an http(s)
scheme, makes `send_notification` return failure with zero network calls
and zero sleeps. -/
theorem send_notification_guard (responses : Nat → HttpResp)
    (evaluation_url : String) (notification_data : List (String × PyVal))
    (h : (∃ f ∈ required_fields, ¬hasKey notification_data f = true) ∨
      ¬(strStartsWith evaluation_url "http://" = true ∨
        strStartsWith evaluation_url "https://" = true)) :
    send_notification responses evaluation_url notification_data =
      ⟨false, 0, []⟩ := by
  by_cases hm :
      required_fields.filter (fun f => !(hasKey notification_data f)) = []
  · have hurl : ¬(strStartsWith evaluation_url "http://" = true ∨
        strStartsWith evaluation_url "https://" = true) := by
      rcases h with ⟨f, hf, hnot⟩ | hu
      · rw [List.filter_eq_nil_iff] at hm
        exact absurd (by simpa using hm f hf) hnot
      · exact hu
    rw [send_notification]
    simp [hm, hurl]
  · rw [send_notification]
    simp [hm]

/-- C7 witness: the payload lacks `email`. -/
theorem send_notification_guard_witness :
    send_notification (fun _ => .status 200) "https://eval.example/cb"
      missingEmailPayload = ⟨false, 0, []⟩ :=
  send_notification_guard (fun _ => .status 200) "https://eval.example/cb"
    missingEmailPayload (Or.inl ⟨"email", by decide, by decide⟩)

/-- C8: `_enable_github_pages` never raises and returns the expected
hosting URL `https://<username>.github.io/<repo-name>/` whatever the
Pages API did — success, duplicate activation, error status or
exception: the result is the same for every outcome. -/
theorem enable_github_pages_always_url (github_username repo_name : String)
    (outcome outcome' : PagesApiOutcome) :
    enable_github_pages github_username repo_name outcome =
      "https://" ++ github_username ++ ".github.io/" ++ repo_name ++ "/" ∧
    enable_github_pages github_username repo_name outcome =
      enable_github_pages github_username repo_name outcome' := by
  constructor
  · cases outcome <;> simp [enable_github_pages]
  · cases outcome <;> cases outcome' <;> simp [enable_github_pages]

/-- C9: the public validator and the precondition inside
`send_notification` are non-equivalent contracts: a payload with all
seven keys but `round = 0` passes the send precondition (delivery is
attempted — here one call succeeding) while the validator rejects it. -/
theorem validate_vs_send_precondition_distinct :
    (∀ f ∈ required_fields, hasKey roundZeroPayload f = true) ∧
    (validate_notification_data roundZeroPayload).1 = false ∧
    (send_notification (fun _ => .status 200) "https://eval.example/cb"
      roundZeroPayload).networkCalls = 1 ∧
    (send_notification (fun _ => .status 200) "https://eval.example/cb"
      roundZeroPayload).result = true := by
  refine ⟨by decide, by decide, ?_, ?_⟩ <;> decide

/-- C10: the endpoint checks only the presence of `round` (all required
fields present and a matching secret give acceptance whatever value
`round` holds), and the pipeline takes the create path exactly when
`round` equals the int 1 — every other value routes to the update path. -/
theorem round_presence_only_and_routing (shared_secret : String)
    (request_data : List (String × PyVal))
    (hfields : ∀ f ∈ app_required_fields, hasKey request_data f = true)
    (hsecret : lookupKey "secret" request_data = some (.str shared_secret)) :
    handle_deployment_request shared_secret request_data = 200 ∧
    (∀ v : PyVal, select_deploy_path v = .create ↔ v = .int 1) := by
  constructor
  · have hmiss :
        app_required_fields.filter (fun f => !(hasKey request_data f)) = [] := by
      rw [List.filter_eq_nil_iff]
      intro f hf
      simp [hfields f hf]
    rw [handle_deployment_request]
    simp [hmiss, hsecret]
  · intro v
    cases v with
    | str s => simp [select_deploy_path, pyEq]
    | int n =>
      by_cases hn : n = 1
      · subst hn
        simp [select_deploy_path, pyEq]
      · simp [select_deploy_path, pyEq, hn]

/-! ## Character lemmas for the repo-name slug -/

theorem char_eq_of_toNat_eq {c d : Char} (h : c.toNat = d.toNat) : c = d := by
  apply Char.ext
  apply UInt32.ext
  simpa [Char.toNat] using h

theorem toNat_pyLowerChar_upper {c : Char} (h1 : 65 ≤ c.toNat)
    (h2 : c.toNat ≤ 90) : (pyLowerChar c).toNat = c.toNat + 32 := by
  have hv : Nat.isValidChar (c.toNat + 32) := Or.inl (by omega)
  rw [pyLowerChar, if_pos ⟨h1, h2⟩]
  unfold Char.ofNat
  rw [dif_pos hv]
  simp [Char.ofNatAux, Char.toNat, UInt32.toNat, BitVec.toNat_ofNatLt]

theorem pyLowerChar_eq_self_of_not_upper {c : Char}
    (h1 : ¬(65 ≤ c.toNat ∧ c.toNat ≤ 90))
    (h2 : ¬(192 ≤ c.toNat ∧ c.toNat ≤ 222 ∧ c.toNat ≠ 215)) :
    pyLowerChar c = c := by
  rw [pyLowerChar, if_neg h1, if_neg h2]

theorem slug_output_char_ascii {a : Char} (ha : a.toNat < 128)
    (hkeep : slugKeep (spaceToHyphen (underToHyphen (pyLowerChar a))) = true) :
    inSlugCharset (spaceToHyphen (underToHyphen (pyLowerChar a))) := by
  by_cases hup : 65 ≤ a.toNat ∧ a.toNat ≤ 90
  · have hn : (pyLowerChar a).toNat = a.toNat + 32 :=
      toNat_pyLowerChar_upper hup.1 hup.2
    have hu : underToHyphen (pyLowerChar a) = pyLowerChar a := by
      rw [underToHyphen, if_neg]
      intro hc
      rw [hc] at hn
      have : (95 : Nat) = a.toNat + 32 := by simpa using hn
      omega
    have hs : spaceToHyphen (pyLowerChar a) = pyLowerChar a := by
      rw [spaceToHyphen, if_neg]
      intro hc
      rw [hc] at hn
      have : (32 : Nat) = a.toNat + 32 := by simpa using hn
      omega
    rw [hu, hs]
    unfold inSlugCharset
    omega
  · have hla : pyLowerChar a = a :=
      pyLowerChar_eq_self_of_not_upper hup (by intro hc; omega)
    rw [hla] at hkeep ⊢
    by_cases hund : a = '_'
    · subst hund
      decide
    · by_cases hsp : a = ' '
      · subst hsp
        decide
      · by_cases hd : a = '-'
        · subst hd
          decide
        · by_cases hdot : a = '.'
          · subst hdot
            decide
          · rw [underToHyphen, if_neg hund, spaceToHyphen, if_neg hsp]
              at hkeep ⊢
            simp only [slugKeep, pyIsAlnumChar, Bool.or_eq_true,
              Bool.and_eq_true, decide_eq_true_eq, beq_iff_eq, hd, hdot,
              or_false] at hkeep
            unfold inSlugCharset
            omega

theorem slug_char_fixed {c : Char} (hc : inSlugCharset c) :
    pyLowerChar c = c ∧ underToHyphen c = c ∧ spaceToHyphen c = c ∧
    slugKeep c = true := by
  have hn : (97 ≤ c.toNat ∧ c.toNat ≤ 122) ∨ (48 ≤ c.toNat ∧ c.toNat ≤ 57) ∨
      c.toNat = 45 ∨ c.toNat = 46 := hc
  refine ⟨?_, ?_, ?_, ?_⟩
  · exact pyLowerChar_eq_self_of_not_upper (by omega) (by intro h; omega)
  · rw [underToHyphen, if_neg]
    intro h
    subst h
    exact absurd hc (by decide)
  · rw [spaceToHyphen, if_neg]
    intro h
    subst h
    exact absurd hc (by decide)
  · rcases hn with h | h | h | h
    · have halnum : pyIsAlnumChar c = true := by
        simp only [pyIsAlnumChar, Bool.or_eq_true, Bool.and_eq_true,
          decide_eq_true_eq, beq_iff_eq]
        omega
      simp [slugKeep, halnum]
    · have halnum : pyIsAlnumChar c = true := by
        simp only [pyIsAlnumChar, Bool.or_eq_true, Bool.and_eq_true,
          decide_eq_true_eq, beq_iff_eq]
        omega
      simp [slugKeep, halnum]
    · have : c = '-' := char_eq_of_toNat_eq (by simpa using h)
      subst this
      decide
    · have : c = '.' := char_eq_of_toNat_eq (by simpa using h)
      subst this
      decide

theorem mem_generate_repo_name_chars_ascii {cs : List Char}
    (ha : ∀ a ∈ cs, a.toNat < 128) :
    ∀ c ∈ generate_repo_name_chars cs, inSlugCharset c := by
  intro c hc
  rw [generate_repo_name_chars] at hc
  obtain ⟨hin, hkeep⟩ := List.mem_filter.mp hc
  simp only [List.map_map, List.mem_map, Function.comp] at hin
  obtain ⟨a, hacs, rfl⟩ := hin
  exact slug_output_char_ascii (ha a hacs) hkeep

theorem generate_repo_name_chars_fixed (cs : List Char)
    (h : ∀ c ∈ cs, inSlugCharset c) :
    generate_repo_name_chars cs = cs := by
  rw [generate_repo_name_chars]
  have h1 : cs.map pyLowerChar = cs := by
    rw [List.map_congr_left fun a hm => (slug_char_fixed (h a hm)).1]
    exact List.map_id cs
  rw [h1]
  have h2 : cs.map underToHyphen = cs := by
    rw [List.map_congr_left fun a hm => (slug_char_fixed (h a hm)).2.1]
    exact List.map_id cs
  rw [h2]
  have h3 : cs.map spaceToHyphen = cs := by
    rw [List.map_congr_left fun a hm => (slug_char_fixed (h a hm)).2.2.1]
    exact List.map_id cs
  rw [h3]
  exact List.filter_eq_self.mpr fun a hm => (slug_char_fixed (h a hm)).2.2.2

/-- C4 counterexample: over all strings the claimed output character set
fails — the task id `"é"` maps to `"é"`, whose character is outside
`[a-z0-9-.]` (Python's `str.isalnum` keeps non-ASCII letters and
`str.lower` leaves `é` unchanged, so the filter does not strip it). -/
theorem generate_repo_name_charset_cex :
    ¬(∀ c ∈ (generate_repo_name "é").toList, inSlugCharset c) := by
  decide

/-- C4 (amended to ASCII task ids): for every task id of ASCII characters,
`_generate_repo_name` produces only characters in `[a-z0-9-.]`, is
idempotent, and maps `"Sales Dashboard_v2"` to `"sales-dashboard-v2"`
(purity/determinism holds by construction: it is a function of the task
id alone). -/
theorem generate_repo_name_ascii (task_id : String)
    (h : ∀ c ∈ task_id.toList, c.toNat < 128) :
    (∀ c ∈ (generate_repo_name task_id).toList, inSlugCharset c) ∧
    generate_repo_name (generate_repo_name task_id) =
      generate_repo_name task_id ∧
    generate_repo_name "Sales Dashboard_v2" = "sales-dashboard-v2" := by
  have hout : ∀ c ∈ generate_repo_name_chars task_id.toList, inSlugCharset c :=
    mem_generate_repo_name_chars_ascii h
  refine ⟨hout, ?_, by decide⟩
  show (⟨generate_repo_name_chars
      (String.toList ⟨generate_repo_name_chars task_id.toList⟩)⟩ : String) = _
  rw [show String.toList ⟨generate_repo_name_chars task_id.toList⟩ =
    generate_repo_name_chars task_id.toList from rfl]
  rw [generate_repo_name_chars_fixed _ hout]
  rfl

/-- C4 witness: the amended theorem at the spec's own example. -/
theorem generate_repo_name_ascii_witness :
    (∀ c ∈ (generate_repo_name "Sales Dashboard_v2").toList,
      inSlugCharset c) ∧
    generate_repo_name (generate_repo_name "Sales Dashboard_v2") =
      generate_repo_name "Sales Dashboard_v2" ∧
    generate_repo_name "Sales Dashboard_v2" = "sales-dashboard-v2" :=
  generate_repo_name_ascii "Sales Dashboard_v2" (by decide)

/-- C10 witness: a request whose `round` is the string `"weird"` is still
accepted, and the string `"weird"` routes to the update path. -/
theorem round_presence_only_and_routing_witness :
    handle_deployment_request "s3cret" demoRequest = 200 ∧
    (∀ v : PyVal, select_deploy_path v = .create ↔ v = .int 1) :=
  round_presence_only_and_routing "s3cret" demoRequest (by decide) (by decide)

end LLMDeploy
